import Mathlib

/-!
Shallow embedding of `src/src/bindings/vvisf_bindings.cpp`, the single C++
source file of the repository.  The file defines three classes exposed through
pybind11 — `ValidationResult`, `ImageData` and `VVISFEngine` — plus the
module-level functions `create_engine` and `get_version`.  Every method of
`VVISFEngine` first checks the private flag `is_initialized_` and throws a
`std::runtime_error` when it is false; otherwise the bodies are TODO stubs.

Modelling choices:
  * A thrown `std::runtime_error` is modelled as `Except.error msg` carrying
    the exception message; a normal return of `v` with the (possibly updated)
    engine state `e` is `Except.ok (v, e)`.
  * `py::object` values produced by the stub are only `py::float_(0.0)` and
    `py::make_tuple(512, 512)`; they are modelled by the closed inductive
    `PyObject` (the float literal `0.0` is exact, represented as the rational
    `0`).
  * `std::map<std::string, T>` is modelled as an association list ordered by
    key, matching the map's in-order traversal; the stub builds the map
    `params` whose in-order contents are `("resolution", (512,512))`,
    `("time", 0.0)` since `"resolution" < "time"` lexicographically.
  * C++ `int` is modelled as `Int` and `std::vector::size` / `resize` counts
    as `Nat` via `Int.toNat` (a negative requested size is the C++ conversion
    to `size_t`; claims only concern positive sizes).
  * `reinterpret_cast<uintptr_t>(&data)` in `create_texture` is a runtime
    address; it is passed in as an explicit `addr : Nat` parameter, making the
    nondeterminism explicit.
  * The engine's private state is exactly the two fields of the C++ class:
    `last_error_ : std::string` and `is_initialized_ : bool`.  The class has
    no texture table or any other container member.
-/

/-- The closed set of `py::object` values the stub ever builds:
`py::float_(0.0)` and `py::make_tuple(512, 512)`. -/
inductive PyObject where
  | pyFloat (q : ℚ)
  | pyIntPair (a b : Int)
  deriving DecidableEq, Repr

/-- `ValidationResult`: `is_valid`, `errors`, `warnings`, `metadata`
(a `std::map<std::string, py::object>`). -/
structure ValidationResult where
  is_valid : Bool
  errors : List String
  warnings : List String
  metadata : List (String × PyObject)
  deriving DecidableEq, Repr

/-- `ImageData`: `width`, `height`, `data` (a `std::vector<uint8_t>`, each
byte a `Nat` intended below 256) and `format`. -/
structure ImageData where
  width : Int
  height : Int
  data : List Nat
  format : String
  deriving DecidableEq, Repr

/-- The two-argument `ImageData` constructor: sets `width`/`height`, leaves
`format = "RGBA"` by default, and `data.resize(width * height * 4)`
zero-fills the byte vector. -/
def ImageData.ofSize (w h : Int) (fmt : String) : ImageData :=
  { width := w, height := h, data := List.replicate (w * h * 4).toNat 0, format := fmt }

/-- The private state of a `VVISFEngine` object: exactly the two C++ data
members `last_error_` and `is_initialized_`. -/
structure VVISFEngine where
  last_error_ : String
  is_initialized_ : Bool
  deriving DecidableEq, Repr

/-- The default constructor `VVISFEngine()`: initializes `is_initialized_` to
`false`, then the `try` block (whose body is the plain assignment
`is_initialized_ = true;` — the TODO comment emits no code and the assignment
cannot throw) sets it to `true`; the `catch` branch is therefore dead and
`last_error_` keeps its default empty value. -/
def VVISFEngine.new : VVISFEngine :=
  { last_error_ := "", is_initialized_ := true }

/-- Module-level `create_engine`: `std::make_unique<VVISFEngine>()`, i.e. the
default constructor. -/
def create_engine : VVISFEngine :=
  VVISFEngine.new

/-- `get_last_error`: returns `last_error_`. -/
def VVISFEngine.get_last_error (e : VVISFEngine) : String :=
  e.last_error_

/-- `is_initialized`: returns `is_initialized_`. -/
def VVISFEngine.is_initialized (e : VVISFEngine) : Bool :=
  e.is_initialized_

/-- `reset_errors`: clears `last_error_`. -/
def VVISFEngine.reset_errors (e : VVISFEngine) : VVISFEngine :=
  { e with last_error_ := "" }

/-- `validate_isf(isf_json)`: throws when not initialized; otherwise the
`try` body builds a `ValidationResult` with `is_valid = true` and empty
`errors`, `warnings`, `metadata` and returns it (nothing in the body can
throw, so the `catch` branch that would return `is_valid = false` with the
exception message is dead code).  The engine state is not modified. -/
def VVISFEngine.validate_isf (e : VVISFEngine) (isf_json : String) :
    Except String (ValidationResult × VVISFEngine) :=
  if e.is_initialized_ = false then
    .error ("VVISFEngine not initialized: " ++ e.last_error_)
  else
    .ok ({ is_valid := true, errors := [], warnings := [], metadata := [] }, e)

/-- `render_shader(isf_json, width, height, parameters)`: throws when not
initialized; otherwise constructs `ImageData image(width, height)` and
overwrites `image.data` with `std::vector<uint8_t>(width * height * 4, 255)`.
The `parameters` map is ignored.  The engine state is not modified. -/
def VVISFEngine.render_shader (e : VVISFEngine) (isf_json : String)
    (width height : Int) (parameters : List (String × PyObject)) :
    Except String (ImageData × VVISFEngine) :=
  if e.is_initialized_ = false then
    .error ("VVISFEngine not initialized: " ++ e.last_error_)
  else
    .ok ({ ImageData.ofSize width height "RGBA" with
           data := List.replicate (width * height * 4).toNat 255 }, e)

/-- `create_texture(data, width, height, format)`: throws when not
initialized; otherwise ignores `width`, `height`, `format` and returns the
string `"texture_" + std::to_string(reinterpret_cast<uintptr_t>(&data))`.
The address of the `data` argument is the explicit parameter `addr`.  The
engine state is not modified and nothing is recorded anywhere. -/
def VVISFEngine.create_texture (e : VVISFEngine) (data : List Nat)
    (width height : Int) (format : String) (addr : Nat) :
    Except String (String × VVISFEngine) :=
  if e.is_initialized_ = false then
    .error ("VVISFEngine not initialized: " ++ e.last_error_)
  else
    .ok ("texture_" ++ toString addr, e)

/-- `destroy_texture(texture_id)`: throws when not initialized; otherwise the
body only voids its argument and returns.  The engine state is not
modified. -/
def VVISFEngine.destroy_texture (e : VVISFEngine) (texture_id : String) :
    Except String (Unit × VVISFEngine) :=
  if e.is_initialized_ = false then
    .error ("VVISFEngine not initialized: " ++ e.last_error_)
  else
    .ok ((), e)

/-- `get_parameters(isf_json)`: throws when not initialized; otherwise
ignores `isf_json` and returns the hard-coded map
`params["time"] = 0.0; params["resolution"] = (512, 512)` — in the
`std::map` key order, `"resolution"` before `"time"`. -/
def VVISFEngine.get_parameters (e : VVISFEngine) (isf_json : String) :
    Except String (List (String × PyObject) × VVISFEngine) :=
  if e.is_initialized_ = false then
    .error ("VVISFEngine not initialized: " ++ e.last_error_)
  else
    .ok ([("resolution", PyObject.pyIntPair 512 512), ("time", PyObject.pyFloat 0)], e)

/-- `set_parameter(isf_json, param_name, value)`: throws when not
initialized; otherwise the body only voids its arguments and returns. -/
def VVISFEngine.set_parameter (e : VVISFEngine) (isf_json param_name : String)
    (value : PyObject) : Except String (Unit × VVISFEngine) :=
  if e.is_initialized_ = false then
    .error ("VVISFEngine not initialized: " ++ e.last_error_)
  else
    .ok ((), e)

/-- Module-level `get_version`: the literal `"1.0.0"`. -/
def get_version : String :=
  "1.0.0"

/-- A concrete ISF document whose JSON header declares the input name
"foo" twice. -/
def dupInputDoc : String :=
  "/*\x7b \"DESCRIPTION\": \"demo\", \"INPUTS\": [ \x7b \"NAME\": \"foo\", \"TYPE\": \"float\" \x7d, \x7b \"NAME\": \"foo\", \"TYPE\": \"float\" \x7d ] \x7d*/ void main() \x7b gl_FragColor = vec4(1.0); \x7d"

/-- A concrete single-pass ISF document with no inputs whose shader outputs
the constant color (1, 0, 0, 1). -/
def redShaderDoc : String :=
  "/*\x7b \"DESCRIPTION\": \"constant red\", \"INPUTS\": [], \"PASSES\": [ \x7b \x7d ] \x7d*/ void main() \x7b gl_FragColor = vec4(1.0, 0.0, 0.0, 1.0); \x7d"

/-- Claim C1: for every input string passed to `validate_isf` on an
initialized engine (any state with `is_initialized_ = true`), the returned
`ValidationResult` has `is_valid = true` and empty `errors` and `warnings`;
in particular every well-formed document with zero passes referencing
undeclared names is accepted. -/
theorem C1_validate_isf_always_succeeds (err isf_json : String) :
    VVISFEngine.validate_isf ⟨err, true⟩ isf_json =
      .ok ({ is_valid := true, errors := [], warnings := [], metadata := [] },
        (⟨err, true⟩ : VVISFEngine)) := by
  rfl

/-- Claim C2: for every input text, positive width and height, and parameter
mapping, `render_shader` on an initialized engine returns an `ImageData`
whose `width`, `height` equal the arguments, whose `format` is "RGBA", and
whose `data` is exactly `width * height * 4` bytes, each equal to 255. -/
theorem C2_render_shader_opaque_white (err isf_json : String)
    (width height : Int) (parameters : List (String × PyObject))
    (hw : 0 < width) (hh : 0 < height) :
    ∃ img : ImageData,
      VVISFEngine.render_shader ⟨err, true⟩ isf_json width height parameters =
          .ok (img, ⟨err, true⟩) ∧
        img.width = width ∧ img.height = height ∧ img.format = "RGBA" ∧
        (img.data.length : Int) = width * height * 4 ∧ ∀ b ∈ img.data, b = 255 := by
  refine ⟨_, rfl, rfl, rfl, rfl, ?_, ?_⟩
  · show ((List.replicate (width * height * 4).toNat 255).length : Int) = width * height * 4
    rw [List.length_replicate]
    exact Int.toNat_of_nonneg (by positivity)
  · intro b hb
    exact List.eq_of_mem_replicate hb

/-- Witness for C2 at the concrete initialized engine, input "shader",
width 4, height 4 and empty parameter mapping. -/
theorem C2_render_shader_opaque_white_witness :
    ∃ img : ImageData,
      VVISFEngine.render_shader ⟨"", true⟩ "shader" 4 4 [] =
          .ok (img, ⟨"", true⟩) ∧
        img.width = 4 ∧ img.height = 4 ∧ img.format = "RGBA" ∧
        (img.data.length : Int) = 4 * 4 * 4 ∧ ∀ b ∈ img.data, b = 255 :=
  C2_render_shader_opaque_white "" "shader" 4 4 [] (by decide) (by decide)

/-- Claim C3, counterexample: on the malformed input
"this is not an ISF document" the stub still returns `is_valid = true` with
empty `errors`, so the claimed outcome (`is_valid = false` and non-empty
`errors` for malformed input) is false at this input. -/
theorem C3_counterexample_malformed_accepted :
    ¬ ∃ (r : ValidationResult) (e : VVISFEngine),
        VVISFEngine.validate_isf ⟨"", true⟩ "this is not an ISF document" =
            .ok (r, e) ∧
          r.is_valid = false ∧ r.errors ≠ [] := by
  rintro ⟨r, e, heq, hvalid, -⟩
  rw [show VVISFEngine.validate_isf ⟨"", true⟩ "this is not an ISF document" =
      .ok ({ is_valid := true, errors := [], warnings := [], metadata := [] },
        (⟨"", true⟩ : VVISFEngine)) from rfl] at heq
  injection heq with hpair
  injection hpair with hr he
  rw [← hr] at hvalid
  cases hvalid

/-- Claim C3, amended: `validate_isf` on an initialized engine never throws
and always returns a populated `ValidationResult`, but for malformed input
(as for every input) that result has `is_valid = true` and empty `errors`:
the stub accepts everything and leaves the engine state unchanged. -/
theorem C3_validate_isf_total_but_accepting (err isf_json : String) :
    ∃ r : ValidationResult,
      VVISFEngine.validate_isf ⟨err, true⟩ isf_json = .ok (r, ⟨err, true⟩) ∧
        r.is_valid = true ∧ r.errors = [] ∧ r.warnings = [] :=
  ⟨_, rfl, rfl, rfl, rfl⟩

/-- Claim C4, counterexample: on the concrete document `dupInputDoc`, whose
header declares the input name "foo" twice, `validate_isf` does NOT return
`is_valid = false`: the stub accepts it, so the claim fails at this input. -/
theorem C4_counterexample_duplicate_not_flagged :
    ¬ ∃ (r : ValidationResult) (e : VVISFEngine),
        VVISFEngine.validate_isf ⟨"", true⟩ dupInputDoc = .ok (r, e) ∧
          r.is_valid = false := by
  rintro ⟨r, e, heq, hvalid⟩
  rw [show VVISFEngine.validate_isf ⟨"", true⟩ dupInputDoc =
      .ok ({ is_valid := true, errors := [], warnings := [], metadata := [] },
        (⟨"", true⟩ : VVISFEngine)) from rfl] at heq
  injection heq with hpair
  injection hpair with hr he
  rw [← hr] at hvalid
  cases hvalid

/-- Claim C4, amended: for every document string, including ones with a
duplicated input name such as `dupInputDoc`, `validate_isf` on an
initialized engine returns `is_valid = true` with empty `errors`: duplicate
input names are not detected, no error identifies them. -/
theorem C4_duplicate_inputs_accepted (err : String) :
    ∃ r : ValidationResult,
      VVISFEngine.validate_isf ⟨err, true⟩ dupInputDoc = .ok (r, ⟨err, true⟩) ∧
        r.is_valid = true ∧ r.errors = [] :=
  ⟨_, rfl, rfl, rfl⟩

/-- Claim C5, counterexample: rendering the constant-red single-pass
document `redShaderDoc` at 4×4 does NOT produce pixels `[255, 0, 0, 255]`:
the stub fills every byte with 255, so pixel 0 is `[255, 255, 255, 255]`. -/
theorem C5_counterexample_red_rendered_white :
    ¬ ∃ (img : ImageData) (e : VVISFEngine),
        VVISFEngine.render_shader ⟨"", true⟩ redShaderDoc 4 4 [] =
            .ok (img, e) ∧
          ∀ p : Fin 16, (img.data.drop (4 * p.val)).take 4 = [255, 0, 0, 255] := by
  rintro ⟨img, e, heq, hall⟩
  rw [show VVISFEngine.render_shader ⟨"", true⟩ redShaderDoc 4 4 [] =
      .ok (({ width := 4, height := 4, data := List.replicate 64 255,
              format := "RGBA" } : ImageData), (⟨"", true⟩ : VVISFEngine)) from rfl] at heq
  injection heq with hpair
  injection hpair with h1 h2
  have h0 := hall 0
  rw [← h1] at h0
  exact absurd h0 (by decide)

/-- Claim C5, amended: rendering the constant-red single-pass document
`redShaderDoc` at 4×4 on an initialized engine returns a 4×4×4-byte buffer
in which every pixel is opaque white, `[255, 255, 255, 255]` — the stub
ignores the shader text entirely. -/
theorem C5_red_doc_renders_white :
    ∃ img : ImageData,
      VVISFEngine.render_shader ⟨"", true⟩ redShaderDoc 4 4 [] =
          .ok (img, ⟨"", true⟩) ∧
        img.width = 4 ∧ img.height = 4 ∧ img.data.length = 64 ∧
        ∀ p : Fin 16, (img.data.drop (4 * p.val)).take 4 = [255, 255, 255, 255] := by
  refine ⟨_, rfl, rfl, rfl, by decide, by decide⟩

/-- Claim C6, counterexample: `destroy_texture` on an initialized engine
returns normally and leaves the state unchanged, so the second call with the
same id is the very same computation and also returns normally — it does not
yield any error (the code has no `ResourceError::NotFound` at all). -/
theorem C6_counterexample_second_destroy_not_error :
    VVISFEngine.destroy_texture ⟨"", true⟩ "texture_42" =
        .ok ((), ⟨"", true⟩) ∧
      ¬ ∃ msg : String,
          VVISFEngine.destroy_texture ⟨"", true⟩ "texture_42" = .error msg := by
  refine ⟨rfl, ?_⟩
  rintro ⟨msg, h⟩
  rw [show VVISFEngine.destroy_texture ⟨"", true⟩ "texture_42" =
      .ok ((), ⟨"", true⟩) from rfl] at h
  cases h

/-- Claim C6, amended: calling `destroy_texture` twice with the same texture
id on an initialized engine never crashes: both calls return normally with
the engine state unchanged; no error of any kind (in particular no
NotFound) is reported on the second call. -/
theorem C6_destroy_texture_twice_returns_normally (err tid : String) :
    ∃ e₁ : VVISFEngine,
      VVISFEngine.destroy_texture ⟨err, true⟩ tid = .ok ((), e₁) ∧
        VVISFEngine.destroy_texture e₁ tid = .ok ((), e₁) :=
  ⟨⟨err, true⟩, rfl, rfl⟩

/-- Claim C7: for every input text, `get_parameters` on an initialized
engine returns a mapping of exactly two entries, "time" mapped to the float
0.0 and "resolution" mapped to the tuple (512, 512), independent of the
input (the `std::map` iterates "resolution" before "time"). -/
theorem C7_get_parameters_hardcoded (err isf_json : String) :
    ∃ params : List (String × PyObject),
      VVISFEngine.get_parameters ⟨err, true⟩ isf_json =
          .ok (params, ⟨err, true⟩) ∧
        params.length = 2 ∧
        params.lookup "time" = some (PyObject.pyFloat 0) ∧
        params.lookup "resolution" = some (PyObject.pyIntPair 512 512) := by
  exact ⟨_, rfl, rfl, by decide, by decide⟩

/-- Claim C8: on an initialized engine (any state `⟨err, true⟩`), every
`create_texture` and `destroy_texture` call returns with the engine state
exactly as before, so `get_last_error` still returns `err` and
`is_initialized` still returns `true` afterwards; the class has no texture
table member at all, so no entry is created or removed anywhere. -/
theorem C8_texture_ops_preserve_state (err fmt tid : String)
    (data : List Nat) (w h : Int) (addr : Nat) :
    VVISFEngine.create_texture ⟨err, true⟩ data w h fmt addr =
        .ok ("texture_" ++ toString addr, ⟨err, true⟩) ∧
      VVISFEngine.destroy_texture ⟨err, true⟩ tid = .ok ((), ⟨err, true⟩) ∧
      VVISFEngine.get_last_error ⟨err, true⟩ = err ∧
      VVISFEngine.is_initialized ⟨err, true⟩ = true :=
  ⟨rfl, rfl, rfl, rfl⟩

/-- Claim C9: `validate_isf` is pure and stateless — two calls with the same
input text on engines in the same state return equal results, and every
successful call returns the engine state it was given, unchanged. -/
theorem C9_validate_isf_pure_stateless (e₁ e₂ : VVISFEngine) (s : String)
    (h : e₁ = e₂) :
    VVISFEngine.validate_isf e₁ s = VVISFEngine.validate_isf e₂ s ∧
      ∀ (r : ValidationResult) (e' : VVISFEngine),
        VVISFEngine.validate_isf e₁ s = .ok (r, e') → e' = e₁ := by
  subst h
  refine ⟨rfl, ?_⟩
  intro r e' hr
  by_cases hi : e₁.is_initialized_ = false
  · simp [VVISFEngine.validate_isf, hi] at hr
  · simp [VVISFEngine.validate_isf, hi] at hr
    exact hr.2.symm

/-- Witness for C9 at the concrete engine `⟨"", true⟩` and input "doc". -/
theorem C9_validate_isf_pure_stateless_witness :
    VVISFEngine.validate_isf ⟨"", true⟩ "doc" =
        VVISFEngine.validate_isf ⟨"", true⟩ "doc" ∧
      ∀ (r : ValidationResult) (e' : VVISFEngine),
        VVISFEngine.validate_isf ⟨"", true⟩ "doc" = .ok (r, e') →
          e' = (⟨"", true⟩ : VVISFEngine) :=
  C9_validate_isf_pure_stateless ⟨"", true⟩ ⟨"", true⟩ "doc" rfl

/-- Claim C10: every engine produced by the default constructor (also via
`create_engine`) has `is_initialized() = true` and `get_last_error() = ""`,
and consequently none of `validate_isf`, `render_shader`, `create_texture`,
`destroy_texture`, `get_parameters`, `set_parameter` ever reaches the
"VVISFEngine not initialized" throw on such an engine: each returns `.ok`
for all arguments. -/
theorem C10_default_engine_is_initialized :
    VVISFEngine.new.is_initialized = true ∧
      VVISFEngine.new.get_last_error = "" ∧
      create_engine = VVISFEngine.new ∧
      (∀ s, ∃ v, VVISFEngine.new.validate_isf s = .ok v) ∧
      (∀ s w h p, ∃ v, VVISFEngine.new.render_shader s w h p = .ok v) ∧
      (∀ d w h f a, ∃ v, VVISFEngine.new.create_texture d w h f a = .ok v) ∧
      (∀ t, ∃ v, VVISFEngine.new.destroy_texture t = .ok v) ∧
      (∀ s, ∃ v, VVISFEngine.new.get_parameters s = .ok v) ∧
      (∀ s n v, ∃ u, VVISFEngine.new.set_parameter s n v = .ok u) :=
  ⟨rfl, rfl, rfl, fun _ => ⟨_, rfl⟩, fun _ _ _ _ => ⟨_, rfl⟩,
    fun _ _ _ _ _ => ⟨_, rfl⟩, fun _ => ⟨_, rfl⟩, fun _ => ⟨_, rfl⟩,
    fun _ _ _ => ⟨_, rfl⟩⟩
